import Mathlib

/-!
Verification development for the pymeflib XPM loader programs.

The repository consists of three C translation units sharing the same shape:
a thin wrapper around the external library call XpmReadFileToData plus a
main routine that prints a few of the returned rows.  The external parse is
modelled from the specification of the XPM grammar; the wrappers and the
main routines are embedded directly from the C source.  Files are modelled
as an optional list of logical rows (none meaning the path cannot be
opened), the file system as a map from paths to such optional contents, and
each main routine as a pure function producing a trace of its standard
output, standard error, the row indices it reads from the loaded data,
its exit status, and a flag recording whether it read out of bounds or
through an indeterminate pointer.
-/

/-- Modelled from the spec: the error taxonomy of the load operation.
The source only sees the integer codes of the external library; the
spec names the kinds OpenFailed, ParseFailed and OutOfMemory. -/
inductive LoadError where
  | OpenFailed
  | ParseFailed
  | OutOfMemory
deriving DecidableEq, Repr

/-- A character is XPM header whitespace (space or tab). -/
def isSpaceChar (c : Char) : Bool :=
  c = ' ' || c = '\t'

/-- Split a list of characters into maximal whitespace-free words.
The accumulator holds the current word reversed. -/
def splitWordsAux : List Char → List Char → List (List Char)
  | [], acc => if acc = [] then [] else [acc.reverse]
  | c :: cs, acc =>
    if isSpaceChar c then
      (if acc = [] then splitWordsAux cs [] else acc.reverse :: splitWordsAux cs [])
    else
      splitWordsAux cs (c :: acc)

/-- The whitespace-separated words of a string, as character lists. -/
def words (s : String) : List (List Char) :=
  splitWordsAux s.toList []

/-- Parse a run of decimal digits, accumulating the value; any
non-digit character rejects the token. -/
def parseNatCore : List Char → Nat → Option Nat
  | [], acc => some acc
  | c :: cs, acc =>
    if 48 ≤ c.toNat ∧ c.toNat ≤ 57 then
      parseNatCore cs (acc * 10 + (c.toNat - 48))
    else
      none

/-- Parse a nonempty all-digit token as a natural number. -/
def parseNatTok (cs : List Char) : Option Nat :=
  match cs with
  | [] => none
  | _ :: _ => parseNatCore cs 0

/-- Modelled from the spec: the XPM header row is four (or more)
whitespace-separated integers, width height num_colors chars_per_pixel,
possibly followed by extension fields. -/
def parseHeader (s : String) : Option (Nat × Nat × Nat × Nat) :=
  match (words s).map parseNatTok with
  | some w :: some h :: some nc :: some cpp :: _ => some (w, h, nc, cpp)
  | _ => none

/-- Modelled from the spec: the load operation performed by the external
library call XpmReadFileToData, which is not part of this repository.
The file is none when the path cannot be opened, otherwise its logical
rows.  A well-formed XPM file is a parsable header row, followed by
num_colors color rows, followed by height pixel rows of exactly
width * chars_per_pixel characters; the result on success is the full
row sequence, header first. -/
def load (file : Option (List String)) : Except LoadError (List String) :=
  match file with
  | none => .error .OpenFailed
  | some [] => .error .ParseFailed
  | some (header :: rest) =>
    match parseHeader header with
    | none => .error .ParseFailed
    | some (w, h, nc, cpp) =>
      if rest.length = nc + h ∧ ∀ r ∈ rest.drop nc, r.length = w * cpp then
        .ok (header :: rest)
      else
        .error .ParseFailed

/-- Modelled from the spec: the integer status codes of the external
library (zero for success, a distinct nonzero code per failure kind). -/
def xpmErrorCode : LoadError → Int
  | .OpenFailed => -1
  | .ParseFailed => -2
  | .OutOfMemory => -3

/-- Modelled from the spec: XpmGetErrorString, the library-defined
human-readable description of a status code. -/
def xpmGetErrorString (c : Int) : String :=
  if c = 0 then "XpmSuccess"
  else if c = -1 then "XpmOpenFailed"
  else if c = -2 then "XpmFileInvalid"
  else if c = -3 then "XpmNoMemory"
  else "Invalid XpmError"

/-- Modelled from the spec: the external entry point XpmReadFileToData.
Returns the integer status code and, through the output parameter, the
row array on success; on failure the output parameter is indeterminate,
modelled as none. -/
def XpmReadFileToData (file : Option (List String)) : Int × Option (List String) :=
  match load file with
  | .ok rows => (0, some rows)
  | .error e => (xpmErrorCode e, none)

/-- Result of the loader wrappers: the returned int, the state of the
caller data pointer after the call (none when indeterminate), and the
lines written to standard error. -/
structure LoaderOut where
  ret : Nat
  data : Option (List String)
  errLines : List String
deriving DecidableEq, Repr

/-- The two-parameter loader of xpm_loader.c (first variant): calls
XpmReadFileToData; on a nonzero code it prints the error string to
standard error and returns 1, otherwise it returns 0. -/
def loader (file : Option (List String)) : LoaderOut :=
  let r := XpmReadFileToData file
  if r.1 ≠ 0 then
    { ret := 1, data := r.2, errLines := [xpmGetErrorString r.1] }
  else
    { ret := 0, data := r.2, errLines := [] }

/-- Result of the four-parameter loader: the LoaderOut plus the values
of the caller variables passed by address for width and height. -/
structure Loader2Out where
  res : LoaderOut
  width : Int
  height : Int
deriving DecidableEq, Repr

/-- The four-parameter loader of xpm_loader.c (second variant): identical
body, except that it also receives pointers to the caller width and
height, declares unused locals w = 0 and h = 0, and never writes through
either pointer; the caller variables keep their values. -/
def loader2 (file : Option (List String)) (width height : Int) : Loader2Out :=
  let _w : Int := 0
  let _h : Int := 0
  let r := XpmReadFileToData file
  if r.1 ≠ 0 then
    { res := { ret := 1, data := r.2, errLines := [xpmGetErrorString r.1] },
      width := width, height := height }
  else
    { res := { ret := 0, data := r.2, errLines := [] },
      width := width, height := height }

/-- Observable trace of one program invocation: standard output lines,
standard error lines, the indices read from the data array, the exit
status, and whether a read was out of bounds or through an
indeterminate pointer. -/
structure MainTrace where
  outLines : List String
  errLines : List String
  rowsRead : List Nat
  exit : Int
  ub : Bool
deriving DecidableEq, Repr

/-- main of xpm_loader.c, first variant: calls loader on argv[1],
ignores the returned error code, and unconditionally prints data[0];
falling off the end of main yields exit status 0. -/
def main1 (fs : String → Option (List String)) (argv : List String)
    (_env : List (String × String)) : MainTrace :=
  let r := loader (fs (argv.getD 1 ""))
  match r.data with
  | some rows =>
    { outLines := ["info: [" ++ rows.getD 0 "" ++ "]"],
      errLines := r.errLines,
      rowsRead := [0], exit := 0, ub := rows.isEmpty }
  | none =>
    { outLines := [], errLines := r.errLines,
      rowsRead := [0], exit := 0, ub := true }

/-- The loop bound of the second main variant: the height variable is
overwritten with the constant 13 right after the loader call. -/
def main2LoopBound : Nat := 13

/-- main of xpm_loader.c, second variant: calls the four-parameter
loader on argv[1] with width = 0 and height = 0, ignores the returned
error code, sets height to 13, prints data[0], then prints data[i] for
every i below 13, regardless of how many rows were actually loaded;
falling off the end of main yields exit status 0. -/
def main2 (fs : String → Option (List String)) (argv : List String)
    (_env : List (String × String)) : MainTrace :=
  let width : Int := 0
  let height : Int := 0
  let r := loader2 (fs (argv.getD 1 "")) width height
  let bound := main2LoopBound
  match r.res.data with
  | some rows =>
    { outLines := ("AA=" ++ rows.getD 0 "" ++ "=AA")
        :: (List.range bound).map (fun i => "BB=~" ++ rows.getD i "" ++ "=~"),
      errLines := r.res.errLines,
      rowsRead := 0 :: List.range bound, exit := 0,
      ub := rows.isEmpty || decide (rows.length < bound) }
  | none =>
    { outLines := [], errLines := r.res.errLines,
      rowsRead := 0 :: List.range bound, exit := 0, ub := true }

/-- main of the unnamed translation unit: calls XpmReadFileToData on
argv[1] directly; on a nonzero code it prints argv[0] and the error
string to standard error and returns 1 without touching data; on
success it prints three pointer sizes (8, 8 and 1 on the build target)
and data[9]. -/
def mainU (fs : String → Option (List String)) (argv : List String)
    (_env : List (String × String)) : MainTrace :=
  let r := XpmReadFileToData (fs (argv.getD 1 ""))
  if r.1 ≠ 0 then
    { outLines := [],
      errLines := [argv.getD 0 "" ++ ": " ++ xpmGetErrorString r.1],
      rowsRead := [], exit := 1, ub := false }
  else
    match r.2 with
    | some rows =>
      { outLines := ["size: 8, 8, 1", "AA=" ++ rows.getD 9 "" ++ "=AA"],
        errLines := [],
        rowsRead := [9], exit := 0, ub := decide (rows.length ≤ 9) }
    | none =>
      { outLines := [], errLines := [], rowsRead := [9], exit := 0, ub := true }

/-- The concrete 2 by 2, 2-color, 1-char-per-pixel example rows. -/
def xpm22 : List String :=
  ["2 2 2 1", ". c #FFFFFF", "# c #000000", ".#", "#."]

/-- A file system with no readable files. -/
def fsNone : String → Option (List String) := fun _ => none

/-- A file system holding exactly the concrete example at path test.xpm. -/
def fsXpm22 : String → Option (List String) :=
  fun p => if p = "test.xpm" then some xpm22 else none

/-- Inversion of a successful load: the file is nonempty, its header
parses, the remaining row count matches the header, and every pixel row
has the declared length. -/
theorem load_ok_inv {file : Option (List String)} {rows : List String}
    (h : load file = .ok rows) :
    ∃ header rest w hgt nc cpp, file = some (header :: rest)
      ∧ rows = header :: rest
      ∧ parseHeader header = some (w, hgt, nc, cpp)
      ∧ rest.length = nc + hgt
      ∧ ∀ r ∈ rest.drop nc, r.length = w * cpp := by
  cases file with
  | none => simp [load] at h
  | some lines =>
    cases lines with
    | nil => simp [load] at h
    | cons header rest =>
      rw [load] at h
      split at h
      · simp at h
      · rename_i w hgt nc cpp hp
        split at h
        · rename_i hc
          cases h
          exact ⟨header, rest, w, hgt, nc, cpp, rfl, rfl, hp, hc.1, hc.2⟩
        · simp at h

/-- On a failed load the modelled library call returns the nonzero code
of the error kind and leaves the output parameter indeterminate. -/
theorem XpmReadFileToData_error {file : Option (List String)} {e : LoadError}
    (h : load file = .error e) :
    XpmReadFileToData file = (xpmErrorCode e, none) := by
  simp [XpmReadFileToData, h]

/-- On a successful load the modelled library call returns code zero and
the full row array. -/
theorem XpmReadFileToData_ok {file : Option (List String)} {rows : List String}
    (h : load file = .ok rows) :
    XpmReadFileToData file = (0, some rows) := by
  simp [XpmReadFileToData, h]

/-- Every error kind carries a nonzero library status code. -/
theorem xpmErrorCode_ne_zero (e : LoadError) : xpmErrorCode e ≠ 0 := by
  cases e <;> decide

/-- Behavior of the two-parameter loader when the load fails. -/
theorem loader_error {file : Option (List String)} {e : LoadError}
    (h : load file = .error e) :
    loader file
      = { ret := 1, data := none,
          errLines := [xpmGetErrorString (xpmErrorCode e)] } := by
  simp [loader, XpmReadFileToData_error h, xpmErrorCode_ne_zero e]

/-- Behavior of the two-parameter loader when the load succeeds. -/
theorem loader_ok {file : Option (List String)} {rows : List String}
    (h : load file = .ok rows) :
    loader file = { ret := 0, data := some rows, errLines := [] } := by
  simp [loader, XpmReadFileToData_ok h]

/-- C4: for every well-formed XPM file accepted by load, the total row
count of the produced handle equals 1 + num_colors + height as declared
by the header row, and every index below 1 + num_colors + height is an
in-bounds index into the row sequence. -/
theorem load_rowCount_eq (file : Option (List String)) (rows : List String)
    (w hgt nc cpp : Nat) (h : load file = .ok rows)
    (hhd : parseHeader (rows.headD "") = some (w, hgt, nc, cpp)) :
    rows.length = 1 + nc + hgt
    ∧ ∀ i, i < 1 + nc + hgt → i < rows.length := by
  obtain ⟨header, rest, w2, hgt2, nc2, cpp2, _, hrows, hp, hlen, _⟩ :=
    load_ok_inv h
  subst hrows
  simp only [List.headD_cons] at hhd
  rw [hp] at hhd
  simp only [Option.some.injEq, Prod.mk.injEq] at hhd
  obtain ⟨hw, hh, hn, hc⟩ := hhd
  subst hw hh hn hc
  constructor
  · simp only [List.length_cons, hlen]
    omega
  · intro i hi
    simp only [List.length_cons, hlen]
    omega

/-- C4 witness at the concrete example file. -/
theorem load_rowCount_eq_witness :
    xpm22.length = 1 + 2 + 2 ∧ 4 < xpm22.length :=
  ⟨(load_rowCount_eq (some xpm22) xpm22 2 2 2 1 rfl rfl).1,
   (load_rowCount_eq (some xpm22) xpm22 2 2 2 1 rfl rfl).2 4 (by decide)⟩

/-- C6: on the concrete 2 by 2, 2-color, 1-char-per-pixel file, load
succeeds with 5 rows, row 0 the header and rows 3 and 4 the pixel rows. -/
theorem load_xpm22_concrete :
    load (some xpm22) = .ok xpm22
    ∧ xpm22.length = 5
    ∧ xpm22.getD 0 "" = "2 2 2 1"
    ∧ xpm22.getD 3 "" = ".#"
    ∧ xpm22.getD 4 "" = "#." :=
  ⟨rfl, rfl, rfl, rfl, rfl⟩

/-- C7: for every well-formed XPM file accepted by load and every
pixel-data row index i in the range from 1 + num_colors up to the row
count, the length of row i equals width * chars_per_pixel as declared
by the header row. -/
theorem load_pixelRow_length (file : Option (List String)) (rows : List String)
    (w hgt nc cpp : Nat) (h : load file = .ok rows)
    (hhd : parseHeader (rows.headD "") = some (w, hgt, nc, cpp)) :
    ∀ i, ∀ hi : i < rows.length, 1 + nc ≤ i →
      (rows.get ⟨i, hi⟩).length = w * cpp := by
  obtain ⟨header, rest, w2, hgt2, nc2, cpp2, _, hrows, hp, hlen, hpix⟩ :=
    load_ok_inv h
  subst hrows
  simp only [List.headD_cons] at hhd
  rw [hp] at hhd
  simp only [Option.some.injEq, Prod.mk.injEq] at hhd
  obtain ⟨hw, hh, hn, hc⟩ := hhd
  subst hw hh hn hc
  intro i hi hge
  cases i with
  | zero => omega
  | succ j =>
    have hj : j < rest.length := by
      simpa using hi
    have hnc : nc2 ≤ j := by omega
    have hb : j - nc2 < (rest.drop nc2).length := by
      simp only [List.length_drop]
      omega
    have hmem : (rest.drop nc2).get ⟨j - nc2, hb⟩ ∈ rest.drop nc2 :=
      List.get_mem _ _ hb
    have heq : (rest.drop nc2).get ⟨j - nc2, hb⟩ = rest.get ⟨j, hj⟩ := by
      simp only [List.get_eq_getElem, List.getElem_drop]
      congr 1
      omega
    have := hpix _ hmem
    rw [heq] at this
    simpa using this

/-- C7 witness at the concrete example file, pixel row 3. -/
theorem load_pixelRow_length_witness :
    (xpm22.get ⟨3, by decide⟩).length = 2 * 1 :=
  load_pixelRow_length (some xpm22) xpm22 2 2 2 1 rfl rfl 3 (by decide) (by decide)

/-- C3: when load fails, no handle is produced: the caller data pointer
is indeterminate (none) after either loader wrapper, and no row
sequence, in particular no partially built one, is returned by load. -/
theorem load_failure_no_handle (file : Option (List String)) (e : LoadError)
    (h : load file = .error e) :
    (loader file).data = none
    ∧ (loader2 file 0 0).res.data = none
    ∧ ∀ rows : List String, ¬ load file = .ok rows := by
  refine ⟨?_, ?_, ?_⟩
  · rw [loader_error h]
  · simp [loader2, XpmReadFileToData_error h, xpmErrorCode_ne_zero e]
  · intro rows hk
    rw [h] at hk
    exact Except.noConfusion hk

/-- C3 witness at a nonexistent file. -/
theorem load_failure_no_handle_witness :
    (loader (fsNone "test.xpm")).data = none
    ∧ (loader2 (fsNone "test.xpm") 0 0).res.data = none
    ∧ ¬ load (fsNone "test.xpm") = .ok xpm22 :=
  ⟨(load_failure_no_handle (fsNone "test.xpm") .OpenFailed rfl).1,
   (load_failure_no_handle (fsNone "test.xpm") .OpenFailed rfl).2.1,
   (load_failure_no_handle (fsNone "test.xpm") .OpenFailed rfl).2.2 xpm22⟩

/-- C5: for every path that names no existing readable file, load
returns exactly the OpenFailed error and produces no row sequence. -/
theorem load_missing_file (fs : String → Option (List String)) (path : String)
    (h : fs path = none) :
    load (fs path) = .error .OpenFailed
    ∧ ∀ rows : List String, ¬ load (fs path) = .ok rows := by
  rw [h]
  exact ⟨rfl, fun rows hk => Except.noConfusion hk⟩

/-- C5 witness at the empty file system. -/
theorem load_missing_file_witness :
    load (fsNone "missing.xpm") = .error .OpenFailed
    ∧ ¬ load (fsNone "missing.xpm") = .ok xpm22 :=
  ⟨(load_missing_file fsNone "missing.xpm" rfl).1,
   (load_missing_file fsNone "missing.xpm" rfl).2 xpm22⟩

/-- C1 counterexample: at a nonexistent file, the first xpm_loader.c
variant ignores the error code of the failed load, exits with status 0
rather than 1, and still reads row 0 of the indeterminate data pointer. -/
theorem failed_load_main1_counterexample :
    load (fsNone "test.xpm") = .error .OpenFailed
    ∧ (main1 fsNone ["a.out", "test.xpm"] []).exit = 0
    ∧ (main1 fsNone ["a.out", "test.xpm"] []).rowsRead = [0]
    ∧ (main1 fsNone ["a.out", "test.xpm"] []).ub = true :=
  ⟨rfl, by decide, by decide, by decide⟩

/-- Behavior of the four-parameter loader when the load fails. -/
theorem loader2_of_error (file : Option (List String)) (width height : Int)
    (e : LoadError) (h : load file = .error e) :
    loader2 file width height
      = { res := { ret := 1, data := none,
                   errLines := [xpmGetErrorString (xpmErrorCode e)] },
          width := width, height := height } := by
  unfold loader2
  rw [XpmReadFileToData_error h, if_pos (xpmErrorCode_ne_zero e)]

/-- Behavior of the four-parameter loader when the load succeeds. -/
theorem loader2_of_ok (file : Option (List String)) (width height : Int)
    (rows : List String) (h : load file = .ok rows) :
    loader2 file width height
      = { res := { ret := 0, data := some rows, errLines := [] },
          width := width, height := height } := by
  unfold loader2
  rw [XpmReadFileToData_ok h, if_neg (fun hc => hc rfl)]

/-- Trace of the first main variant when the load fails. -/
theorem main1_of_error (fs : String → Option (List String))
    (argv : List String) (env : List (String × String)) (e : LoadError)
    (h : load (fs (argv.getD 1 "")) = .error e) :
    main1 fs argv env
      = { outLines := [], errLines := [xpmGetErrorString (xpmErrorCode e)],
          rowsRead := [0], exit := 0, ub := true } := by
  unfold main1
  rw [loader_error h]

/-- Trace of the first main variant when the load succeeds. -/
theorem main1_of_ok (fs : String → Option (List String))
    (argv : List String) (env : List (String × String)) (rows : List String)
    (h : load (fs (argv.getD 1 "")) = .ok rows) :
    main1 fs argv env
      = { outLines := ["info: [" ++ rows.getD 0 "" ++ "]"], errLines := [],
          rowsRead := [0], exit := 0, ub := rows.isEmpty } := by
  unfold main1
  rw [loader_ok h]

/-- Trace of the second main variant when the load fails. -/
theorem main2_of_error (fs : String → Option (List String))
    (argv : List String) (env : List (String × String)) (e : LoadError)
    (h : load (fs (argv.getD 1 "")) = .error e) :
    main2 fs argv env
      = { outLines := [], errLines := [xpmGetErrorString (xpmErrorCode e)],
          rowsRead := 0 :: List.range main2LoopBound, exit := 0,
          ub := true } := by
  simp only [main2]
  rw [loader2_of_error _ _ _ _ h]

/-- Trace of the second main variant when the load succeeds. -/
theorem main2_of_ok (fs : String → Option (List String))
    (argv : List String) (env : List (String × String)) (rows : List String)
    (h : load (fs (argv.getD 1 "")) = .ok rows) :
    main2 fs argv env
      = { outLines := ("AA=" ++ rows.getD 0 "" ++ "=AA")
            :: (List.range main2LoopBound).map
                 (fun i => "BB=~" ++ rows.getD i "" ++ "=~"),
          errLines := [], rowsRead := 0 :: List.range main2LoopBound,
          exit := 0,
          ub := rows.isEmpty || decide (rows.length < main2LoopBound) } := by
  simp only [main2]
  rw [loader2_of_ok _ _ _ _ h]

/-- Trace of the unnamed-unit main when the load fails. -/
theorem mainU_of_error (fs : String → Option (List String))
    (argv : List String) (env : List (String × String)) (e : LoadError)
    (h : load (fs (argv.getD 1 "")) = .error e) :
    mainU fs argv env
      = { outLines := [],
          errLines := [argv.getD 0 "" ++ ": "
            ++ xpmGetErrorString (xpmErrorCode e)],
          rowsRead := [], exit := 1, ub := false } := by
  unfold mainU
  rw [XpmReadFileToData_error h, if_pos (xpmErrorCode_ne_zero e)]

/-- C1 amended: on every failed load the library error string is
written to standard error in all three program variants; only the main
of the unnamed translation unit then exits with status 1 without
reading any row, while both xpm_loader.c variants ignore the error
code, exit with status 0, and still read the indeterminate data. -/
theorem failed_load_behavior (fs : String → Option (List String))
    (argv : List String) (env : List (String × String)) (e : LoadError)
    (h : load (fs (argv.getD 1 "")) = .error e) :
    (mainU fs argv env).errLines
        = [argv.getD 0 "" ++ ": " ++ xpmGetErrorString (xpmErrorCode e)]
    ∧ (mainU fs argv env).exit = 1
    ∧ (mainU fs argv env).rowsRead = []
    ∧ (main1 fs argv env).errLines = [xpmGetErrorString (xpmErrorCode e)]
    ∧ (main1 fs argv env).exit = 0
    ∧ (main1 fs argv env).rowsRead = [0]
    ∧ (main1 fs argv env).ub = true
    ∧ (main2 fs argv env).errLines = [xpmGetErrorString (xpmErrorCode e)]
    ∧ (main2 fs argv env).exit = 0
    ∧ (main2 fs argv env).ub = true := by
  rw [mainU_of_error fs argv env e h, main1_of_error fs argv env e h,
    main2_of_error fs argv env e h]
  exact ⟨rfl, rfl, rfl, rfl, rfl, rfl, rfl, rfl, rfl, rfl⟩

/-- C1 amended witness at a nonexistent file. -/
theorem failed_load_behavior_witness :
    (mainU fsNone ["a.out", "test.xpm"] []).errLines
        = ["a.out" ++ ": " ++ xpmGetErrorString (xpmErrorCode .OpenFailed)]
    ∧ (mainU fsNone ["a.out", "test.xpm"] []).exit = 1
    ∧ (mainU fsNone ["a.out", "test.xpm"] []).rowsRead = []
    ∧ (main1 fsNone ["a.out", "test.xpm"] []).errLines
        = [xpmGetErrorString (xpmErrorCode .OpenFailed)]
    ∧ (main1 fsNone ["a.out", "test.xpm"] []).exit = 0
    ∧ (main1 fsNone ["a.out", "test.xpm"] []).rowsRead = [0]
    ∧ (main1 fsNone ["a.out", "test.xpm"] []).ub = true
    ∧ (main2 fsNone ["a.out", "test.xpm"] []).errLines
        = [xpmGetErrorString (xpmErrorCode .OpenFailed)]
    ∧ (main2 fsNone ["a.out", "test.xpm"] []).exit = 0
    ∧ (main2 fsNone ["a.out", "test.xpm"] []).ub = true :=
  failed_load_behavior fsNone ["a.out", "test.xpm"] [] .OpenFailed rfl

/-- C2: the second main variant always performs exactly 13 pixel-row
print iterations, reading indices 0 through 12 regardless of the input
image; whenever the loaded image has fewer than 13 rows, the loop reads
an index beyond the row count, an out-of-bounds access. -/
theorem main2_fixed_loop (fs : String → Option (List String))
    (argv : List String) (env : List (String × String)) :
    (main2 fs argv env).rowsRead = 0 :: List.range main2LoopBound
    ∧ main2LoopBound = 13
    ∧ ∀ rows : List String, load (fs (argv.getD 1 "")) = .ok rows →
        rows.length < 13 →
        (main2 fs argv env).ub = true
        ∧ rows.length ∈ (main2 fs argv env).rowsRead := by
  refine ⟨?_, rfl, ?_⟩
  · cases hx : load (fs (argv.getD 1 "")) with
    | ok rows => rw [main2_of_ok fs argv env rows hx]
    | error e => rw [main2_of_error fs argv env e hx]
  · intro rows hok hlt
    rw [main2_of_ok fs argv env rows hok]
    constructor
    · simp [main2LoopBound, hlt]
    · simp only [List.mem_cons, List.mem_range, main2LoopBound]
      omega

/-- C2 witness: the concrete 5-row example is printed over 13 loop
iterations including the out-of-bounds index 5. -/
theorem main2_fixed_loop_witness :
    (main2 fsXpm22 ["a.out", "test.xpm"] []).rowsRead
        = 0 :: List.range main2LoopBound
    ∧ main2LoopBound = 13
    ∧ (main2 fsXpm22 ["a.out", "test.xpm"] []).ub = true
    ∧ xpm22.length ∈ (main2 fsXpm22 ["a.out", "test.xpm"] []).rowsRead :=
  ⟨(main2_fixed_loop fsXpm22 ["a.out", "test.xpm"] []).1,
   (main2_fixed_loop fsXpm22 ["a.out", "test.xpm"] []).2.1,
   ((main2_fixed_loop fsXpm22 ["a.out", "test.xpm"] []).2.2 xpm22 rfl
      (by decide)).1,
   ((main2_fixed_loop fsXpm22 ["a.out", "test.xpm"] []).2.2 xpm22 rfl
      (by decide)).2⟩

/-- C8: every program variant uses exactly one positional argument,
argv[1], as the path; with at least one positional argument supplied
the access argv[1] is in bounds and equals the path passed to the load
operation, and the trace is unchanged by extra arguments or by any
change to the environment. -/
theorem main_argv_usage (fs : String → Option (List String))
    (argv : List String) (env env2 : List (String × String))
    (extra : List String) (h : 2 ≤ argv.length) :
    argv.getD 1 "" = argv.get ⟨1, h⟩
    ∧ main1 fs argv env = main1 fs (argv.take 2 ++ extra) env2
    ∧ main2 fs argv env = main2 fs (argv.take 2 ++ extra) env2
    ∧ mainU fs argv env = mainU fs (argv.take 2 ++ extra) env2 := by
  match argv, h with
  | a :: b :: t, _ => exact ⟨rfl, rfl, rfl, rfl⟩

/-- C8 witness at a two-argument invocation with extra noise. -/
theorem main_argv_usage_witness :
    ["a.out", "test.xpm"].getD 1 ""
        = ["a.out", "test.xpm"].get ⟨1, by decide⟩
    ∧ main1 fsXpm22 ["a.out", "test.xpm"] []
        = main1 fsXpm22 (["a.out", "test.xpm"].take 2 ++ ["extra"])
            [("HOME", "/root")]
    ∧ main2 fsXpm22 ["a.out", "test.xpm"] []
        = main2 fsXpm22 (["a.out", "test.xpm"].take 2 ++ ["extra"])
            [("HOME", "/root")]
    ∧ mainU fsXpm22 ["a.out", "test.xpm"] []
        = mainU fsXpm22 (["a.out", "test.xpm"].take 2 ++ ["extra"])
            [("HOME", "/root")] :=
  main_argv_usage fsXpm22 ["a.out", "test.xpm"] [] [("HOME", "/root")]
    ["extra"] (by decide)

/-- C9: the four-parameter loader never writes through its width and
height output parameters; the caller variables hold the same values
after the call as before it, for every input file. -/
theorem loader2_frame (file : Option (List String)) (width height : Int) :
    (loader2 file width height).width = width
    ∧ (loader2 file width height).height = height := by
  simp only [loader2]
  split
  · exact ⟨rfl, rfl⟩
  · exact ⟨rfl, rfl⟩

/-- C10: the two-parameter loader collapses every error kind of the
underlying parse call to the single return value 1 and success to 0,
so the kinds are indistinguishable by return value; the only per-kind
information is the message written to standard error. -/
theorem loader_collapses_errors (file file2 : Option (List String)) :
    (∀ rows : List String, load file = .ok rows → (loader file).ret = 0)
    ∧ (∀ e : LoadError, load file = .error e →
        (loader file).ret = 1
        ∧ (loader file).errLines
            = [xpmGetErrorString (xpmErrorCode e)])
    ∧ (∀ e e2 : LoadError, load file = .error e → load file2 = .error e2 →
        (loader file).ret = (loader file2).ret) := by
  refine ⟨?_, ?_, ?_⟩
  · intro rows hk
    rw [loader_ok hk]
  · intro e he
    rw [loader_error he]
    exact ⟨rfl, rfl⟩
  · intro e e2 he he2
    rw [loader_error he, loader_error he2]

/-- C10 witness: an open failure and a parse failure yield the same
return value 1, while a successful load returns 0. -/
theorem loader_collapses_errors_witness :
    (loader (some xpm22)).ret = 0
    ∧ (loader (fsNone "a.xpm")).ret = 1
    ∧ (loader (fsNone "a.xpm")).errLines
        = [xpmGetErrorString (xpmErrorCode .OpenFailed)]
    ∧ (loader (fsNone "a.xpm")).ret = (loader (some [])).ret :=
  ⟨(loader_collapses_errors (some xpm22) (some xpm22)).1 xpm22 rfl,
   ((loader_collapses_errors (fsNone "a.xpm") (some [])).2.1 .OpenFailed rfl).1,
   ((loader_collapses_errors (fsNone "a.xpm") (some [])).2.1 .OpenFailed rfl).2,
   (loader_collapses_errors (fsNone "a.xpm") (some [])).2.2 .OpenFailed
     .ParseFailed rfl rfl⟩
